import Mathlib

/-!
Verification of the email open-tracking server (`src/server.js`).

The server keeps one table `email_tracking` (one row per tracking id) and
exposes a tracking-pixel endpoint plus JSON query endpoints.  We embed the
record type, the helper predicates, the pixel-endpoint state transition and
the query endpoints as executable Lean definitions, and prove the spec's
claims about them.

Conventions of the embedding:
* timestamps are epoch milliseconds (`Nat`); the JS code stores ISO strings
  whose SQL/string order agrees with the numeric order;
* nullable columns (`ip_address`, `user_agent`, `sender_ip`, `created_at`)
  are `Option`; JS truthiness of a string is `≠ none` and `≠ some ""`;
* `Date.now() - created` is computed in `Int` exactly as JS arithmetic does.
-/

/-- One row of the `email_tracking` table (see the CREATE TABLE statement). -/
structure TrackingRecord where
  tracking_id : String
  ip_address : Option String
  user_agent : Option String
  first_opened : Nat
  last_opened : Nat
  open_count : Nat
  sender_ip : Option String
  created_at : Option Nat
deriving Repr, DecidableEq

/-- `leadsWith pat s`: the character list `pat` is an initial segment of `s`
(the elementary step of JS `String.prototype.includes`). -/
def leadsWith : List Char → List Char → Bool
  | [], _ => true
  | _ :: _, [] => false
  | p :: ps, c :: cs => p == c && leadsWith ps cs

/-- `occursIn pat s`: `pat` occurs as a contiguous substring of `s`
(JS `s.includes(pat)`). -/
def occursIn (pat : List Char) : List Char → Bool
  | [] => pat.isEmpty
  | c :: cs => leadsWith pat (c :: cs) || occursIn pat cs

/-- `isGmailProxy(userAgent, ip)`: false on a falsy user-agent, otherwise a
substring test of the lower-cased user-agent (JS `toLowerCase`, here a
per-character map) against the proxy markers. -/
def isGmailProxy (userAgent : String) : Bool :=
  if userAgent = "" then false
  else
    let ua := userAgent.data.map Char.toLower
    occursIn "google".data ua || occursIn "gmail".data ua ||
      occursIn "googleimageproxy".data ua

/-- `isTooSoonAfterCreation(createdAt)`: false on a null `created_at`,
otherwise whether less than two minutes (120000 ms) elapsed since creation.
The subtraction is `Int`-valued, as in JS. -/
def isTooSoonAfterCreation (now : Nat) (createdAt : Option Nat) : Bool :=
  match createdAt with
  | none => false
  | some c => (now : Int) - (c : Int) < 120000

/-- The handler's `isSenderIP` signal: `row.sender_ip && ipAddress === row.sender_ip`
(a null or empty stored `sender_ip` is falsy, short-circuiting to `false`). -/
def isSenderIP (sender_ip : Option String) (ipAddress : String) : Bool :=
  match sender_ip with
  | none => false
  | some s => if s = "" then false else ipAddress == s

/-- The three boolean signals the pixel handler computes for an existing row:
same-IP-as-sender, Gmail-proxy, too-soon-after-creation. -/
def classifySignals (row : TrackingRecord) (ipAddress userAgent : String) (now : Nat) :
    Bool × Bool × Bool :=
  (isSenderIP row.sender_ip ipAddress, isGmailProxy userAgent,
    isTooSoonAfterCreation now row.created_at)

/-- The counting decision `if (!isSenderIP || !isTooSoon)` of the handler.
The Gmail-proxy signal is computed but not consulted. -/
def countedAsOpen (row : TrackingRecord) (ipAddress userAgent : String) (now : Nat) : Bool :=
  let s := classifySignals row ipAddress userAgent now
  !s.1 || !s.2.2

/-- The UPDATE statement: set `last_opened`, increment `open_count`,
overwrite `ip_address` and `user_agent`; all other columns untouched. -/
def updateRecord (row : TrackingRecord) (ipAddress userAgent : String) (now : Nat) :
    TrackingRecord :=
  { row with
      last_opened := now
      open_count := row.open_count + 1
      ip_address := some ipAddress
      user_agent := some userAgent }

/-- Effect of one pixel request on an already-existing row: update when the
observation is counted, otherwise leave the row unchanged. -/
def observeExisting (row : TrackingRecord) (ipAddress userAgent : String) (now : Nat) :
    TrackingRecord :=
  if countedAsOpen row ipAddress userAgent now then updateRecord row ipAddress userAgent now
  else row

/-- The INSERT statement for a first observation: `open_count = 0`,
`sender_ip` = requester IP, `first_opened = last_opened = now`, and
`created_at` filled by the column default `CURRENT_TIMESTAMP` (same moment). -/
def mkRecord (trackingId ipAddress userAgent : String) (now : Nat) : TrackingRecord :=
  { tracking_id := trackingId
    ip_address := some ipAddress
    user_agent := some userAgent
    first_opened := now
    last_opened := now
    open_count := 0
    sender_ip := some ipAddress
    created_at := some now }

/-- The table, as the list of its rows. -/
abbrev Store := List TrackingRecord

/-- `SELECT * FROM email_tracking WHERE tracking_id = ?` (point lookup). -/
def getById (store : Store) (trackingId : String) : Option TrackingRecord :=
  store.find? (fun r => r.tracking_id == trackingId)

/-- State transition of `GET /track/:trackingId.png`: update the existing
row, or insert a fresh sender-baseline row when the id is new. -/
def trackPixel (store : Store) (trackingId ipAddress userAgent : String) (now : Nat) :
    Store :=
  match getById store trackingId with
  | some _ =>
      store.map (fun r =>
        if r.tracking_id == trackingId then observeExisting r ipAddress userAgent now else r)
  | none => store ++ [mkRecord trackingId ipAddress userAgent now]

/-- The fixed transparent 1×1 PNG, as its base64 payload. -/
def transparentPixel : String :=
  "iVBORw0KGgoAAAANSUhEUgAAAAEAAAABCAYAAAAfFcSJAAAADUlEQVR42mNk+M9QDwADhgGAWjR9awAAAABJRU5ErkJggg=="

/-- The pixel response: status, headers set by `res.set`, and body. -/
structure PixelResponse where
  status : Nat
  contentType : String
  cacheControl : String
  pragma : String
  expires : String
  body : String
deriving Repr, DecidableEq

/-- The response the pixel endpoint always sends. -/
def pixelResponse : PixelResponse :=
  { status := 200
    contentType := "image/png"
    cacheControl := "no-store, no-cache, must-revalidate, private"
    pragma := "no-cache"
    expires := "0"
    body := transparentPixel }

/-- The whole `GET /track/:trackingId.png` handler: the storage side effect
(skipped entirely when the initial lookup errors, `dbErr`) together with the
response, which is sent unconditionally. -/
def trackHandler (dbErr : Bool) (store : Store) (trackingId ipAddress userAgent : String)
    (now : Nat) : Store × PixelResponse :=
  (if dbErr then store else trackPixel store trackingId ipAddress userAgent now,
    pixelResponse)

/-- Sort order of the SQL `ORDER BY first_opened DESC`. -/
def firstOpenedGE (a b : TrackingRecord) : Prop :=
  b.first_opened ≤ a.first_opened

instance : DecidableRel firstOpenedGE := fun _ _ => Nat.decLe _ _

instance : IsTotal TrackingRecord firstOpenedGE :=
  ⟨fun a b => (Nat.le_total b.first_opened a.first_opened).imp id id⟩

instance : IsTrans TrackingRecord firstOpenedGE :=
  ⟨fun _ _ _ h h' => Nat.le_trans h' h⟩

/-- The SQL part of `GET /api/recent-opens`:
`WHERE first_opened > ? AND open_count > 0 ORDER BY first_opened DESC`. -/
def recentOpensQuery (store : Store) (since : Nat) : List TrackingRecord :=
  List.insertionSort firstOpenedGE
    (store.filter (fun r => since < r.first_opened && 0 < r.open_count))

/-- The JS re-filter applied to the query result: keep a row iff at least
two minutes passed since its creation, or `open_count > 1`.  A null
`created_at` makes the JS time difference `NaN`, failing the comparison. -/
def recentOpensKeep (now : Nat) (r : TrackingRecord) : Bool :=
  (match r.created_at with
    | none => false
    | some c => 120000 ≤ (now : Int) - (c : Int))
  || 1 < r.open_count

/-- The rows `GET /api/recent-opens` reports (`realOpens` in the source). -/
def realOpens (store : Store) (since now : Nat) : List TrackingRecord :=
  (recentOpensQuery store since).filter (recentOpensKeep now)

/-- One element of the `GET /api/recent-opens` JSON array. -/
structure OpenInfo where
  trackingId : String
  ipAddress : Option String
  timestamp : Nat
  lastOpened : Nat
  openCount : Nat
deriving Repr, DecidableEq

/-- The JSON projection of a row used by `GET /api/recent-opens`. -/
def renderOpen (r : TrackingRecord) : OpenInfo :=
  { trackingId := r.tracking_id
    ipAddress := r.ip_address
    timestamp := r.first_opened
    lastOpened := r.last_opened
    openCount := r.open_count }

/-- The full body of `GET /api/recent-opens` (`listRecentOpens`). -/
def listRecentOpens (store : Store) (since now : Nat) : List OpenInfo :=
  (realOpens store since now).map renderOpen

/-- Body of a JSON query endpoint response. -/
inductive ApiBody where
  | recordJson (r : TrackingRecord)
  | errorJson (msg : String)
deriving Repr, DecidableEq

/-- A JSON endpoint reply: HTTP status plus body. -/
structure ApiReply where
  status : Nat
  body : ApiBody
deriving Repr, DecidableEq

/-- The `GET /api/tracking/:trackingId` handler: 500 on a storage error,
200 with the record when found, otherwise 404 `{error: ...}`. -/
def apiTracking (dbErr : Bool) (store : Store) (trackingId : String) : ApiReply :=
  if dbErr then { status := 500, body := .errorJson "Database error" }
  else
    match getById store trackingId with
    | some row => { status := 200, body := .recordJson row }
    | none => { status := 404, body := .errorJson "Tracking ID not found" }

/-- The table's UNIQUE constraint on `tracking_id`: pairwise distinct ids. -/
def UniqueIds (store : Store) : Prop :=
  store.Pairwise (fun a b => a.tracking_id ≠ b.tracking_id)

/-- The §3 invariant: a never-counted record still carries only the
creation-time placeholder in `first_opened` and `last_opened`. -/
def baselineInv (r : TrackingRecord) : Prop :=
  r.open_count = 0 → r.created_at = some r.first_opened ∧ r.last_opened = r.first_opened

theorem recentOpensKeep_iff (now : Nat) (r : TrackingRecord) :
    recentOpensKeep now r = true ↔
      (∃ c, r.created_at = some c ∧ (120000 : Int) ≤ (now : Int) - (c : Int)) ∨
        1 < r.open_count := by
  cases h : r.created_at with
  | none => simp [recentOpensKeep, h]
  | some c => simp [recentOpensKeep, h]

theorem mem_realOpens (store : Store) (since now : Nat) (r : TrackingRecord) :
    r ∈ realOpens store since now ↔
      r ∈ store ∧ since < r.first_opened ∧ 0 < r.open_count ∧
        ((∃ c, r.created_at = some c ∧ (120000 : Int) ≤ (now : Int) - (c : Int)) ∨
          1 < r.open_count) := by
  simp only [realOpens, recentOpensQuery, List.mem_filter, List.mem_insertionSort,
    recentOpensKeep_iff, Bool.and_eq_true, decide_eq_true_eq]
  constructor
  · rintro ⟨⟨hmem, hsince, hcount⟩, hkeep⟩
    exact ⟨hmem, hsince, hcount, hkeep⟩
  · rintro ⟨hmem, hsince, hcount, hkeep⟩
    exact ⟨⟨hmem, hsince, hcount⟩, hkeep⟩

theorem sorted_realOpens (store : Store) (since now : Nat) :
    (realOpens store since now).Pairwise firstOpenedGE :=
  List.Pairwise.sublist (List.filter_sublist _)
    (List.sorted_insertionSort firstOpenedGE _)

/-- C1: for an observation on an existing record, the observation is counted
iff not both same-IP-as-sender and too-soon hold; a counted observation
increments `open_count` by exactly one, a discarded one leaves it unchanged. -/
theorem counting_rule (row : TrackingRecord) (ip ua : String) (now : Nat) :
    (countedAsOpen row ip ua now = true ↔
      ¬(isSenderIP row.sender_ip ip = true ∧ isTooSoonAfterCreation now row.created_at = true))
    ∧ (countedAsOpen row ip ua now = true →
        (observeExisting row ip ua now).open_count = row.open_count + 1)
    ∧ (countedAsOpen row ip ua now = false →
        (observeExisting row ip ua now).open_count = row.open_count) := by
  refine ⟨?_, ?_, ?_⟩
  · cases hs : isSenderIP row.sender_ip ip <;>
      cases ht : isTooSoonAfterCreation now row.created_at <;>
        simp [countedAsOpen, classifySignals, hs, ht]
  · intro h
    simp [observeExisting, h, updateRecord]
  · intro h
    simp [observeExisting, h]

theorem counting_rule_witness :
    countedAsOpen (mkRecord "abc" "1.1.1.1" "SenderUA" 1000) "2.2.2.2" "RecipUA" 41000 = true ∧
      (observeExisting (mkRecord "abc" "1.1.1.1" "SenderUA" 1000) "2.2.2.2" "RecipUA"
          41000).open_count =
        (mkRecord "abc" "1.1.1.1" "SenderUA" 1000).open_count + 1 :=
  ⟨by decide,
    (counting_rule (mkRecord "abc" "1.1.1.1" "SenderUA" 1000) "2.2.2.2" "RecipUA" 41000).2.1
      (by decide)⟩

/-- C8: the Gmail-proxy heuristic never gates counting — two observations
differing only in their user-agent string get the same classification and
the same resulting `open_count`. -/
theorem ua_does_not_gate_counting (row : TrackingRecord) (ip : String) (now : Nat)
    (ua1 ua2 : String) :
    countedAsOpen row ip ua1 now = countedAsOpen row ip ua2 now
    ∧ (observeExisting row ip ua1 now).open_count =
        (observeExisting row ip ua2 now).open_count := by
  have hc : countedAsOpen row ip ua1 now = countedAsOpen row ip ua2 now := rfl
  refine ⟨hc, ?_⟩
  unfold observeExisting
  rw [← hc]
  cases h : countedAsOpen row ip ua1 now <;> simp [h, updateRecord]

/-- C9: a record whose stored `sender_ip` is null or empty is always counted,
whatever the requester IP and however little time has passed. -/
theorem null_sender_always_counts (row : TrackingRecord) (ip ua : String) (now : Nat)
    (h : row.sender_ip = none ∨ row.sender_ip = some "") :
    countedAsOpen row ip ua now = true
    ∧ (observeExisting row ip ua now).open_count = row.open_count + 1 := by
  have hs : isSenderIP row.sender_ip ip = false := by
    rcases h with h | h <;> simp [isSenderIP, h]
  have hc : countedAsOpen row ip ua now = true := by
    simp [countedAsOpen, classifySignals, hs]
  exact ⟨hc, by simp [observeExisting, hc, updateRecord]⟩

theorem null_sender_always_counts_witness :
    countedAsOpen
        { tracking_id := "t", ip_address := none, user_agent := none, first_opened := 0,
          last_opened := 0, open_count := 3, sender_ip := none, created_at := some 0 }
        "9.9.9.9" "UA" 0 = true
    ∧ (observeExisting
        { tracking_id := "t", ip_address := none, user_agent := none, first_opened := 0,
          last_opened := 0, open_count := 3, sender_ip := none, created_at := some 0 }
        "9.9.9.9" "UA" 0).open_count = 3 + 1 :=
  null_sender_always_counts
    { tracking_id := "t", ip_address := none, user_agent := none, first_opened := 0,
      last_opened := 0, open_count := 3, sender_ip := none, created_at := some 0 }
    "9.9.9.9" "UA" 0 (Or.inl rfl)

/-- C10: a counted observation rewrites exactly `last_opened`, `open_count`,
`ip_address` and `user_agent`, leaving `tracking_id`, `sender_ip`,
`created_at` and `first_opened` untouched; a discarded observation leaves the
whole row unchanged. -/
theorem update_frame (row : TrackingRecord) (ip ua : String) (now : Nat) :
    (countedAsOpen row ip ua now = true →
      observeExisting row ip ua now =
        { row with
            last_opened := now
            open_count := row.open_count + 1
            ip_address := some ip
            user_agent := some ua })
    ∧ (countedAsOpen row ip ua now = true →
        (observeExisting row ip ua now).tracking_id = row.tracking_id
        ∧ (observeExisting row ip ua now).sender_ip = row.sender_ip
        ∧ (observeExisting row ip ua now).created_at = row.created_at
        ∧ (observeExisting row ip ua now).first_opened = row.first_opened)
    ∧ (countedAsOpen row ip ua now = false → observeExisting row ip ua now = row) := by
  refine ⟨?_, ?_, ?_⟩
  · intro h
    simp [observeExisting, h, updateRecord]
  · intro h
    simp [observeExisting, h, updateRecord]
  · intro h
    simp [observeExisting, h]

theorem update_frame_witness :
    observeExisting (mkRecord "abc" "1.1.1.1" "SenderUA" 1000) "2.2.2.2" "RecipUA" 41000 =
      { mkRecord "abc" "1.1.1.1" "SenderUA" 1000 with
          last_opened := 41000
          open_count := (mkRecord "abc" "1.1.1.1" "SenderUA" 1000).open_count + 1
          ip_address := some "2.2.2.2"
          user_agent := some "RecipUA" } :=
  (update_frame (mkRecord "abc" "1.1.1.1" "SenderUA" 1000) "2.2.2.2" "RecipUA" 41000).1
    (by decide)

/-- C6: a freshly created record satisfies the zero-count placeholder
invariant, and one pixel observation on an existing record preserves it:
`open_count = 0` implies `first_opened` and `last_opened` still carry the
creation-time placeholder. -/
theorem baseline_invariant :
    (∀ tid ip ua now, baselineInv (mkRecord tid ip ua now))
    ∧ ∀ (r : TrackingRecord) (ip ua : String) (now : Nat),
        baselineInv r → baselineInv (observeExisting r ip ua now) := by
  constructor
  · intro tid ip ua now _
    exact ⟨rfl, rfl⟩
  · intro r ip ua now hr
    unfold observeExisting
    split
    · intro h0
      simp [updateRecord] at h0
    · exact hr

theorem baseline_invariant_witness :
    baselineInv (observeExisting (mkRecord "abc" "1.1.1.1" "UA" 1000) "1.1.1.1" "UA" 31000) :=
  baseline_invariant.2 (mkRecord "abc" "1.1.1.1" "UA" 1000) "1.1.1.1" "UA" 31000
    (fun _ => ⟨rfl, rfl⟩)

/-- C2: `listRecentOpens` reports exactly the stored rows with
`first_opened > since` and `open_count > 0` that also pass the query-time
grace-window re-filter (two minutes elapsed since creation, or
`open_count > 1`); the output is ordered by `first_opened` (reported as
`timestamp`) descending, and never contains an entry with `openCount = 0`. -/
theorem listRecentOpens_spec (store : Store) (since now : Nat) :
    (∀ o : OpenInfo,
      o ∈ listRecentOpens store since now ↔
        ∃ r : TrackingRecord,
          r ∈ store ∧ since < r.first_opened ∧ 0 < r.open_count ∧
            ((∃ c, r.created_at = some c ∧ (120000 : Int) ≤ (now : Int) - (c : Int)) ∨
              1 < r.open_count) ∧
            renderOpen r = o)
    ∧ (listRecentOpens store since now).Pairwise (fun a b => b.timestamp ≤ a.timestamp)
    ∧ ∀ o ∈ listRecentOpens store since now, 0 < o.openCount := by
  refine ⟨?_, ?_, ?_⟩
  · intro o
    simp only [listRecentOpens, List.mem_map, mem_realOpens]
    constructor
    · rintro ⟨r, ⟨hmem, hsince, hcount, hkeep⟩, hrender⟩
      exact ⟨r, hmem, hsince, hcount, hkeep, hrender⟩
    · rintro ⟨r, hmem, hsince, hcount, hkeep, hrender⟩
      exact ⟨r, ⟨hmem, hsince, hcount, hkeep⟩, hrender⟩
  · have h := sorted_realOpens store since now
    unfold listRecentOpens
    exact List.pairwise_map.mpr h
  · intro o ho
    rcases List.mem_map.mp ho with ⟨r, hr, hrender⟩
    have := ((mem_realOpens store since now r).mp hr).2.2.1
    rw [← hrender]
    exact this

theorem listRecentOpens_spec_witness :
    0 <
      (renderOpen
          (observeExisting (mkRecord "abc" "1.1.1.1" "UA" 1000) "2.2.2.2" "UA2"
            41000)).openCount :=
  (listRecentOpens_spec
      [observeExisting (mkRecord "abc" "1.1.1.1" "UA" 1000) "2.2.2.2" "UA2" 41000] 0
      200000).2.2
    (renderOpen (observeExisting (mkRecord "abc" "1.1.1.1" "UA" 1000) "2.2.2.2" "UA2" 41000))
    (by decide)

/-- C3: the first observation of a never-seen tracking id appends a record
with `open_count = 0`, `sender_ip` = the requester IP and the observation's
IP and user-agent stored; it is not counted as an open, and the new record
never appears in the recent-opens result. -/
theorem first_observation_baseline (store : Store) (tid ip ua : String) (now : Nat)
    (h : getById store tid = none) :
    trackPixel store tid ip ua now = store ++ [mkRecord tid ip ua now]
    ∧ (mkRecord tid ip ua now).open_count = 0
    ∧ (mkRecord tid ip ua now).sender_ip = some ip
    ∧ (mkRecord tid ip ua now).ip_address = some ip
    ∧ (mkRecord tid ip ua now).user_agent = some ua
    ∧ ∀ (store2 : Store) (since now2 : Nat),
        mkRecord tid ip ua now ∉ realOpens store2 since now2 := by
  refine ⟨by simp [trackPixel, h], rfl, rfl, rfl, rfl, ?_⟩
  intro store2 since now2 hmem
  have hcount := ((mem_realOpens store2 since now2 _).mp hmem).2.2.1
  simp [mkRecord] at hcount

theorem first_observation_baseline_witness :
    trackPixel [] "abc" "1.1.1.1" "UA" 1000 = [] ++ [mkRecord "abc" "1.1.1.1" "UA" 1000]
    ∧ (mkRecord "abc" "1.1.1.1" "UA" 1000).open_count = 0
    ∧ mkRecord "abc" "1.1.1.1" "UA" 1000 ∉
        realOpens [mkRecord "abc" "1.1.1.1" "UA" 1000] 0 200000 :=
  ⟨(first_observation_baseline [] "abc" "1.1.1.1" "UA" 1000 (by decide)).1,
    (first_observation_baseline [] "abc" "1.1.1.1" "UA" 1000 (by decide)).2.1,
    (first_observation_baseline [] "abc" "1.1.1.1" "UA" 1000 (by decide)).2.2.2.2.2
      [mkRecord "abc" "1.1.1.1" "UA" 1000] 0 200000⟩

theorem first_count_keeps_first_opened :
    (observeExisting (mkRecord "abc" "1.1.1.1" "SenderUA" 0) "2.2.2.2" "RecipUA"
        40000).open_count = 1
    ∧ (observeExisting (mkRecord "abc" "1.1.1.1" "SenderUA" 0) "2.2.2.2" "RecipUA"
        40000).first_opened ≠ 40000
    ∧ (observeExisting (mkRecord "abc" "1.1.1.1" "SenderUA" 0) "2.2.2.2" "RecipUA"
        40000).first_opened = 0 := by
  decide

/-- C4 (amended): `first_opened` is set at creation to the creation
observation's timestamp and is never modified by later observations — so
after creating at T0 and observing from another IP at T0+40s, `open_count`
is 1 but `first_opened` still reads T0; every counted observation updates
`last_opened`, `ip_address` and `user_agent` to the observation's values. -/
theorem counted_update_fields (row : TrackingRecord) (tid ip ua : String) (now : Nat) :
    (mkRecord tid ip ua now).first_opened = now
    ∧ (mkRecord tid ip ua now).last_opened = now
    ∧ (observeExisting row ip ua now).first_opened = row.first_opened
    ∧ (countedAsOpen row ip ua now = true →
        (observeExisting row ip ua now).last_opened = now
        ∧ (observeExisting row ip ua now).ip_address = some ip
        ∧ (observeExisting row ip ua now).user_agent = some ua) := by
  refine ⟨rfl, rfl, ?_, ?_⟩
  · unfold observeExisting
    split
    · rfl
    · rfl
  · intro h
    simp [observeExisting, h, updateRecord]

theorem counted_update_fields_witness :
    (observeExisting (mkRecord "abc" "1.1.1.1" "SenderUA" 0) "2.2.2.2" "RecipUA"
        40000).last_opened = 40000
    ∧ (observeExisting (mkRecord "abc" "1.1.1.1" "SenderUA" 0) "2.2.2.2" "RecipUA"
        40000).ip_address = some "2.2.2.2"
    ∧ (observeExisting (mkRecord "abc" "1.1.1.1" "SenderUA" 0) "2.2.2.2" "RecipUA"
        40000).user_agent = some "RecipUA" :=
  (counted_update_fields (mkRecord "abc" "1.1.1.1" "SenderUA" 0) "abc" "2.2.2.2" "RecipUA"
      40000).2.2.2 (by decide)

/-- C5: the pixel endpoint answers every request — existing record, new
record, counted or not, even a storage error — with the one fixed response:
status 200, `image/png`, cache-disabling headers and the fixed transparent
1×1 PNG payload; any two requests receive identical responses. -/
theorem pixel_response_uniform :
    (∀ (dbErr : Bool) (store : Store) (tid ip ua : String) (now : Nat),
      (trackHandler dbErr store tid ip ua now).2 = pixelResponse)
    ∧ pixelResponse.status = 200
    ∧ pixelResponse.contentType = "image/png"
    ∧ pixelResponse.cacheControl = "no-store, no-cache, must-revalidate, private"
    ∧ pixelResponse.body = transparentPixel
    ∧ ∀ (e1 : Bool) (s1 : Store) (t1 i1 u1 : String) (n1 : Nat)
        (e2 : Bool) (s2 : Store) (t2 i2 u2 : String) (n2 : Nat),
        (trackHandler e1 s1 t1 i1 u1 n1).2 = (trackHandler e2 s2 t2 i2 u2 n2).2 :=
  ⟨fun _ _ _ _ _ _ => rfl, rfl, rfl, rfl, rfl,
    fun _ _ _ _ _ _ _ _ _ _ _ _ => rfl⟩

theorem getById_eq_some (store : Store) (tid : String) (r : TrackingRecord)
    (hu : UniqueIds store) (hmem : r ∈ store) (hid : r.tracking_id = tid) :
    getById store tid = some r := by
  induction store with
  | nil => cases hmem
  | cons x xs ih =>
      rcases List.pairwise_cons.mp hu with ⟨hx, hxs⟩
      rcases List.mem_cons.mp hmem with hrx | hrxs
      · subst hrx
        simp [getById, List.find?, hid]
      · have hxid : (x.tracking_id == tid) = false := by
          refine beq_eq_false_iff_ne.mpr fun hEq => ?_
          exact hx r hrxs (hEq.trans hid.symm)
        have := ih hxs hrxs
        simpa [getById, List.find?, hxid] using this

/-- C7: under the UNIQUE constraint on tracking ids, `getById` returns the
single stored record with a matching id — rendered as a 200 JSON reply —
and, when no record matches, the lookup fails and the endpoint answers
404 with body `\x7berror: "Tracking ID not found"\x7d`. -/
theorem getById_spec (store : Store) (tid : String) (hu : UniqueIds store) :
    (∀ r : TrackingRecord, r ∈ store → r.tracking_id = tid →
      getById store tid = some r
      ∧ apiTracking false store tid = { status := 200, body := .recordJson r })
    ∧ ((∀ r ∈ store, r.tracking_id ≠ tid) →
        getById store tid = none
        ∧ apiTracking false store tid =
            { status := 404, body := .errorJson "Tracking ID not found" }) := by
  constructor
  · intro r hmem hid
    have h := getById_eq_some store tid r hu hmem hid
    exact ⟨h, by simp [apiTracking, h]⟩
  · intro hall
    have h : getById store tid = none := by
      apply List.find?_eq_none.mpr
      intro x hx
      simpa using hall x hx
    exact ⟨h, by simp [apiTracking, h]⟩

theorem getById_spec_witness :
    (getById [mkRecord "abc" "1.1.1.1" "UA" 1000] "abc" =
        some (mkRecord "abc" "1.1.1.1" "UA" 1000)
      ∧ apiTracking false [mkRecord "abc" "1.1.1.1" "UA" 1000] "abc" =
          { status := 200, body := .recordJson (mkRecord "abc" "1.1.1.1" "UA" 1000) })
    ∧ (getById [mkRecord "abc" "1.1.1.1" "UA" 1000] "zzz" = none
      ∧ apiTracking false [mkRecord "abc" "1.1.1.1" "UA" 1000] "zzz" =
          { status := 404, body := .errorJson "Tracking ID not found" }) :=
  ⟨(getById_spec [mkRecord "abc" "1.1.1.1" "UA" 1000] "abc"
        (List.pairwise_singleton _ _)).1
      (mkRecord "abc" "1.1.1.1" "UA" 1000) (List.mem_singleton.mpr rfl) rfl,
    (getById_spec [mkRecord "abc" "1.1.1.1" "UA" 1000] "zzz"
        (List.pairwise_singleton _ _)).2
      (by decide)⟩
